import Mathlib

/-!
Shallow embedding of `src/components/Button/Button.tsx` (retail-ui Button
component): the render composition (class names, inline style, child
elements, link-variant override) and the focus/blur state machine built on
the process-wide tab-press detector.

Style class names are modelled by their token names ("root", "disabled", ...):
the CSS-module collaborator maps distinct tokens to distinct class strings,
so the token itself stands for the class.
-/

set_option autoImplicit false

namespace ButtonSpec

/-- Modelled from the spec: the `Corners` module (imported from
`./Corners`, not present under `src/`) supplies the per-corner bit
constants of the 4-bit corner mask, in the order top-left, top-right,
bottom-right, bottom-left (spec section 4.5). -/
def TOP_LEFT : Nat := 1

/-- Modelled from the spec: see `TOP_LEFT`. -/
def TOP_RIGHT : Nat := 2

/-- Modelled from the spec: see `TOP_LEFT`. -/
def BOTTOM_RIGHT : Nat := 4

/-- Modelled from the spec: see `TOP_LEFT`. -/
def BOTTOM_LEFT : Nat := 8

inductive ButtonSize
  | small
  | medium
  | large
deriving DecidableEq, Repr

inductive ButtonType
  | button
  | submit
  | reset
deriving DecidableEq, Repr

/-- `ButtonProps` from Button.tsx. `use` is kept as a raw string so that
unrecognized variant values can be reasoned about (the TS type restricts
it, but the fallback `|| classes.default` in the source only matters for
raw values). Event handlers are opaque identities (`Option Nat`). -/
structure ButtonProps where
  noPadding : Bool
  noRightPadding : Bool
  active : Bool
  align : Option String
  arrow : Bool
  autoFocus : Bool
  borderless : Bool
  checked : Bool
  corners : Option Nat
  disabled : Bool
  disableFocus : Bool
  error : Bool
  focused : Bool
  icon : Option String
  loading : Bool
  narrow : Bool
  size : ButtonSize
  type : ButtonType
  use : String
  visuallyFocused : Bool
  warning : Bool
  width : Option String
  onClick : Option Nat
  onKeyDown : Option Nat
  onMouseEnter : Option Nat
  onMouseLeave : Option Nat
  onMouseOver : Option Nat
deriving DecidableEq, Repr

/-- `ButtonState` from Button.tsx. -/
structure ButtonState where
  focusedByTab : Bool
deriving DecidableEq, Repr

/-- A `ButtonProps` with every flag off and the `defaultProps` of the
source (`use: 'default'`, `size: 'small'`, `type: 'button'`). -/
def defProps : ButtonProps where
  noPadding := false
  noRightPadding := false
  active := false
  align := none
  arrow := false
  autoFocus := false
  borderless := false
  checked := false
  corners := none
  disabled := false
  disableFocus := false
  error := false
  focused := false
  icon := none
  loading := false
  narrow := false
  size := ButtonSize.small
  type := ButtonType.button
  use := "default"
  visuallyFocused := false
  warning := false
  width := none
  onClick := none
  onKeyDown := none
  onMouseEnter := none
  onMouseLeave := none
  onMouseOver := none

def stateFalse : ButtonState where
  focusedByTab := false

/-- The `classNames` helper: keeps, in order, the class of every pair
whose condition is true. -/
def classNames (pairs : List (String × Bool)) : List String :=
  (pairs.filter fun pr => pr.2).map fun pr => pr.1

/-- `radius` from Button.tsx render. -/
def radius : String := "2px"

/-- One component of the border-radius string:
`corners & bit ? 0 : radius`. -/
def cornerPart (corners bit : Nat) : String :=
  if corners &&& bit != 0 then "0" else radius

/-- The computed `style.borderRadius` string of Button.tsx lines 253-257. -/
def mkBorderRadius (corners : Nat) : String :=
  cornerPart corners TOP_LEFT ++ " " ++ cornerPart corners TOP_RIGHT
    ++ " " ++ cornerPart corners BOTTOM_RIGHT
    ++ " " ++ cornerPart corners BOTTOM_LEFT

/-- `SIZE_CLASSES` of Button.tsx render; `medium16` is the external
feature flag `Upgrades.isSizeMedium16pxEnabled()`. -/
def sizeClass (medium16 : Bool) : ButtonSize → String
  | ButtonSize.small => "sizeSmall"
  | ButtonSize.medium =>
      if medium16 then "sizeMedium" else "DEPRECATED_sizeMedium"
  | ButtonSize.large => "sizeLarge"

/-- The six recognized variant tokens of `ButtonUse`. -/
def variantNames : List String :=
  ["default", "primary", "success", "danger", "pay", "link"]

/-- Modelled from the spec: the dynamic lookup `classes[this.props.use]`
indexes the style module object, whose key set comes from `Button.less`
(not present under `src/`). Spec section 9 describes the requirement as a
variant-to-token map with a default fallback for unknown values, so the
lookup yields the variant token when `use` is a recognized variant and
misses otherwise. -/
def classesLookup (use : String) : Option String :=
  if use ∈ variantNames then some use else none

/-- `classes[this.props.use] || classes.default` of Button.tsx line 238. -/
def variantClass (use : String) : String :=
  (classesLookup use).getD "default"

/-- Root className in the base (non-link) composition,
Button.tsx lines 236-251, as the ordered class list `classNames` keeps. -/
def baseClassName (medium16 : Bool) (p : ButtonProps) (s : ButtonState) :
    List String :=
  classNames [
    ("root", true),
    (variantClass p.use, true),
    ("active", p.active),
    ("checked", p.checked),
    ("disabled", p.disabled || p.loading),
    ("narrow", p.narrow),
    ("noPadding", p.noPadding),
    ("noRightPadding", p.noRightPadding),
    ("buttonWithIcon", p.icon.isSome),
    (sizeClass medium16 p.size, true),
    ("focus", s.focusedByTab || p.visuallyFocused),
    ("borderless", p.borderless)]

/-- Root className under the link override, Button.tsx lines 316-323. -/
def linkClassName (medium16 : Bool) (p : ButtonProps) (s : ButtonState) :
    List String :=
  classNames [
    ("root", true),
    ("link", true),
    ("disabled", p.disabled),
    ("buttonWithIcon", p.icon.isSome),
    (sizeClass medium16 p.size, true),
    ("focus", s.focusedByTab || p.visuallyFocused)]

structure Style where
  borderRadius : String
  textAlign : Option String
  width : Option String
deriving DecidableEq, Repr

/-- The `rootProps` object spread onto the rendered `<button>`.
`onFocus`/`onBlur` are always the instance handlers (modelled as `true`). -/
structure RootProps where
  type : ButtonType
  className : List String
  style : Style
  disabled : Bool
  onClick : Option Nat
  onFocus : Bool
  onBlur : Bool
  onKeyDown : Option Nat
  onMouseEnter : Option Nat
  onMouseLeave : Option Nat
  onMouseOver : Option Nat
  tabIndex : Int
deriving DecidableEq, Repr

/-- `rootProps` as first built, Button.tsx lines 231-270. -/
def baseRootProps (medium16 : Bool) (p : ButtonProps) (s : ButtonState) :
    RootProps where
  type := p.type
  className := baseClassName medium16 p s
  style :=
    { borderRadius := mkBorderRadius (p.corners.getD 0)
      textAlign := p.align
      width := p.width }
  disabled := p.disabled || p.loading
  onClick := p.onClick
  onFocus := true
  onBlur := true
  onKeyDown := p.onKeyDown
  onMouseEnter := p.onMouseEnter
  onMouseLeave := p.onMouseLeave
  onMouseOver := p.onMouseOver
  tabIndex := if p.disableFocus then -1 else 0

/-- Class list of the arrow decoration, Button.tsx lines 304-309. -/
def arrowClassName (p : ButtonProps) : List String :=
  classNames [
    ("arrow", true),
    ("arrow_loading", p.loading),
    ("arrow_error", p.error),
    ("arrow_warning", p.warning)]

/-- The rendered tree: wrapper span, root button props, and the
conditional children (each child is the class token of its element when
present). -/
structure RenderResult where
  wrapClassName : String
  wrapWidth : Option String
  root : RootProps
  loading : Option String
  arrow : Option (List String)
  icon : Option String
  error : Option String
deriving DecidableEq, Repr

/-- `Button.render`, Button.tsx lines 218-348: base composition followed
by the destructive link-variant override (lines 314-332). -/
def render (medium16 : Bool) (p : ButtonProps) (s : ButtonState) :
    RenderResult :=
  let rootProps := baseRootProps medium16 p s
  let wrapClassName := if p.arrow then "wrap_arrow" else "wrap"
  let wrapWidth : Option String := none
  let error : Option String :=
    if p.error then some "error"
    else if p.warning then some "warning"
    else none
  let loading : Option String := if p.loading then some "loading" else none
  let icon : Option String := if p.icon.isSome then some "icon" else none
  let arrow : Option (List String) :=
    if p.arrow then some (arrowClassName p) else none
  if p.use = "link" then
    { wrapClassName := "wrap"
      wrapWidth := wrapWidth
      root :=
        { rootProps with
            className := linkClassName medium16 p s
            style := { rootProps.style with textAlign := none } }
      loading := none
      arrow := none
      icon := icon
      error := none }
  else
    { wrapClassName := wrapClassName
      wrapWidth := wrapWidth
      root := rootProps
      loading := loading
      arrow := arrow
      icon := icon
      error := error }

/-! ## Focus / tab-press state machine

Module-level mutable state (`isListening`, `tabPressed`), the instance
state `focusedByTab`, whether the underlying DOM node exists and holds
focus, and the count of deferred `process.nextTick` checks scheduled by
`handleFocus` but not yet resolved, all gathered in one machine state. -/

def KEYCODE_TAB : Nat := 9

structure MState where
  isListening : Bool
  listenerCount : Nat
  tabPressed : Bool
  focusedByTab : Bool
  hasFocus : Bool
  pending : Nat
  node : Bool
deriving DecidableEq, Repr

/-- Process start: `let isListening; let tabPressed;` are undefined,
hence falsy; no listener attached, no instance state yet. -/
def initMState : MState where
  isListening := false
  listenerCount := 0
  tabPressed := false
  focusedByTab := false
  hasFocus := false
  pending := 0
  node := false

/-- The per-instance configuration the focus handlers read. -/
structure FocusConfig where
  disabled : Bool
  disableFocus : Bool
  autoFocus : Bool
deriving DecidableEq, Repr

/-- `listenTabPresses`, Button.tsx lines 36-43: attach the global keydown
listener on the first call only. -/
def listenTabPresses (s : MState) : MState :=
  if !s.isListening then
    { s with listenerCount := s.listenerCount + 1, isListening := true }
  else s

/-- The global keydown listener body (Button.tsx lines 38-40), guarded by
the listener actually being attached:
`tabPressed = event.keyCode === KEYCODE_TAB`. -/
def keydownListener (keyCode : Nat) (s : MState) : MState :=
  if s.isListening then { s with tabPressed := keyCode == KEYCODE_TAB }
  else s

/-- `handleFocus`, Button.tsx lines 350-361: when neither `disabled` nor
`disableFocus`, schedule the deferred `process.nextTick` check. -/
def handleFocus (c : FocusConfig) (s : MState) : MState :=
  if !c.disabled && !c.disableFocus then
    { s with pending := s.pending + 1 }
  else s

/-- `handleBlur`, Button.tsx lines 363-365: unconditionally clear
`focusedByTab`. -/
def handleBlur (s : MState) : MState :=
  { s with focusedByTab := false }

/-- Resolution of one pending `process.nextTick` check (Button.tsx lines
354-359): read `tabPressed`; if set, record `focusedByTab` and clear the
flag. -/
def runTick (s : MState) : MState :=
  if s.pending != 0 then
    let s1 := { s with pending := s.pending - 1 }
    if s1.tabPressed then
      { s1 with focusedByTab := true, tabPressed := false }
    else s1
  else s

/-- The observable events of the machine: the global keydown dispatch, a
focus / blur event on the instance, and the resolution of one deferred
check. -/
inductive Ev
  | keydown (keyCode : Nat)
  | focusEvt
  | blurEvt
  | tick
deriving DecidableEq, Repr

def step (c : FocusConfig) (s : MState) : Ev → MState
  | Ev.keydown k => keydownListener k s
  | Ev.focusEvt => handleFocus c { s with hasFocus := true }
  | Ev.blurEvt => handleBlur { s with hasFocus := false }
  | Ev.tick => runTick s

def run (c : FocusConfig) (s : MState) (evs : List Ev) : MState :=
  evs.foldl (step c) s

/-- `focus()`, Button.tsx lines 203-207: `if (this._node) this._node.focus()`.
When the node exists and is not already focused, the DOM focus call
dispatches a focus event on it. -/
def focus (c : FocusConfig) (s : MState) : MState :=
  if s.node then
    if !s.hasFocus then step c s Ev.focusEvt else s
  else s

/-- `blur()`, Button.tsx lines 212-216: `if (this._node) this._node.blur()`.
When the node exists and is focused, the DOM blur call dispatches a blur
event on it. -/
def blur (c : FocusConfig) (s : MState) : MState :=
  if s.node then
    if s.hasFocus then step c s Ev.blurEvt else s
  else s

/-- `componentDidMount`, Button.tsx lines 191-198. -/
def componentDidMount (c : FocusConfig) (s : MState) : MState :=
  let s1 := listenTabPresses s
  if c.autoFocus then
    focus c { s1 with tabPressed := true }
  else s1

/-- A trace is tick-safe from `s` when every deferred-check resolution in
it happens while the control still holds focus. -/
def ticksSafe (c : FocusConfig) (s : MState) : List Ev → Bool
  | [] => true
  | e :: rest =>
      ((e != Ev.tick) || s.hasFocus) && ticksSafe c (step c s e) rest

/-! ## Concrete instances used by witnesses and counterexamples -/

/-- Spec-side reading of the corner mask: the value of the corner at bit
`i` is "0" exactly when bit `i` of the mask is set, the default radius
otherwise. -/
def bitVal (corners i : Nat) : String :=
  if corners.testBit i then "0" else radius

def cfgPlain : FocusConfig where
  disabled := false
  disableFocus := false
  autoFocus := false

def cfgAuto : FocusConfig where
  disabled := false
  disableFocus := false
  autoFocus := true

/-- Machine state after the global listener was attached. -/
def sListening : MState :=
  { initMState with isListening := true }

/-- Machine state of a freshly rendered, unfocused instance. -/
def sNode : MState :=
  { initMState with node := true }

def linkProps : ButtonProps :=
  { defProps with use := "link" }

def linkLoadingProps : ButtonProps :=
  { defProps with use := "link", loading := true }

/-! ## Helper lemmas -/

theorem mem_classNames (a : String) (l : List (String × Bool)) :
    a ∈ classNames l ↔ (a, true) ∈ l := by
  constructor
  · intro h
    rcases List.mem_map.mp h with ⟨⟨x, b⟩, hm, rfl⟩
    rcases List.mem_filter.mp hm with ⟨hx, hb⟩
    simp only at hb
    cases b
    · cases hb
    · exact hx
  · intro h
    exact List.mem_map.mpr ⟨(a, true), List.mem_filter.mpr ⟨h, rfl⟩, rfl⟩

theorem filter_classNames (q : String → Bool) (l : List (String × Bool)) :
    (classNames l).filter q = classNames (l.filter fun pr => q pr.1) := by
  induction l with
  | nil => rfl
  | cons hd tl ih =>
      rcases hd with ⟨a, b⟩
      cases b <;> cases hq : q a <;>
        simp [classNames, List.filter_cons, hq] at ih ⊢ <;>
        exact ih

theorem variantClass_mem_names (u : String) : variantClass u ∈ variantNames := by
  unfold variantClass classesLookup
  split
  · simpa using ‹u ∈ variantNames›
  · simp [variantNames]

theorem variantClass_ne_disabled (u : String) : variantClass u ≠ "disabled" := by
  intro h
  have hm := variantClass_mem_names u
  rw [h] at hm
  simp [variantNames] at hm

theorem sizeClass_not_variant (m : Bool) (sz : ButtonSize) :
    (sizeClass m sz ∈ variantNames) = False := by
  cases sz <;> cases m <;> simp [sizeClass, variantNames]

theorem sizeClass_ne_disabled (m : Bool) (sz : ButtonSize) :
    sizeClass m sz ≠ "disabled" := by
  cases sz <;> cases m <;> simp [sizeClass]

/-! ## Claim theorems -/

/-- Claim C1: for every configuration the rendered button contains
exactly one of error marker, warning marker, neither — the error marker
when the error flag is set, otherwise the warning marker when the warning
flag is set (error takes precedence when both are set) — and under
`use = "link"` neither marker is rendered regardless of the flags. -/
theorem error_warning_marker (medium16 : Bool) (p : ButtonProps)
    (s : ButtonState) :
    (render medium16 p s).error =
      if p.use = "link" then none
      else if p.error then some "error"
      else if p.warning then some "warning"
      else none := by
  by_cases hu : p.use = "link" <;> simp [render, hu]

/-- Claim C2: for every corner mask below 16 the computed border-radius
string joins four per-corner values in the order top-left, top-right,
bottom-right, bottom-left, each "0" exactly when the corresponding bit of
the mask is set and the default radius otherwise; an absent corners
configuration renders the mask-0 radius (all corners rounded), and a
present mask renders its own. -/
theorem border_radius_bits (corners : Nat) (h : corners < 16)
    (medium16 : Bool) (p : ButtonProps) (s : ButtonState)
    (hc : p.corners = none) :
    mkBorderRadius corners =
      String.intercalate " "
        [bitVal corners 0, bitVal corners 1, bitVal corners 2,
          bitVal corners 3] ∧
    (render medium16 p s).root.style.borderRadius = mkBorderRadius 0 ∧
    (render medium16 { p with corners := some corners } s).root.style.borderRadius =
      mkBorderRadius corners := by
  refine ⟨?_, ?_, ?_⟩
  · interval_cases corners <;> decide
  · by_cases hu : p.use = "link" <;> simp [render, baseRootProps, hu, hc]
  · by_cases hu : p.use = "link" <;> simp [render, baseRootProps, hu]

/-- Witness for C2 at mask 5 (top-left and bottom-right suppressed) and
the all-flags-off configuration. -/
theorem border_radius_bits_witness :
    5 < 16 ∧ mkBorderRadius 5 =
      String.intercalate " "
        [bitVal 5 0, bitVal 5 1, bitVal 5 2, bitVal 5 3] := by
  refine ⟨by decide, ?_⟩
  exact (border_radius_bits 5 (by decide) false defProps stateFalse rfl).1

theorem count_classNames_le (a : String) (l : List (String × Bool)) :
    (classNames l).count a ≤ (l.map Prod.fst).count a := by
  have h : (classNames l).Sublist (l.map Prod.fst) :=
    (List.filter_sublist l).map Prod.fst
  exact h.count_le a

/-- Claim C7 counterexample: under `use = "link"` with `loading = true`
and `disabled = false`, the disabled control attribute is set but the
disabled visual class is absent, so loading does not cause both to be
present in every configuration. -/
theorem disabled_class_link_ctrex :
    ("disabled" ∉ (render false linkLoadingProps stateFalse).root.className) ∧
    (render false linkLoadingProps stateFalse).root.disabled = true := by
  decide

/-- Claim C7 as amended: the disabled control attribute always equals
`disabled || loading`; outside the link variant the disabled class is
present exactly when `disabled || loading`; under the link variant the
disabled class reflects only the `disabled` flag (loading no longer
contributes it); and the disabled class never appears more than once. -/
theorem disabled_class_attr (medium16 : Bool) (p : ButtonProps)
    (s : ButtonState) :
    (render medium16 p s).root.disabled = (p.disabled || p.loading) ∧
    (p.use ≠ "link" →
      ("disabled" ∈ (render medium16 p s).root.className ↔
        (p.disabled || p.loading) = true)) ∧
    (p.use = "link" →
      ("disabled" ∈ (render medium16 p s).root.className ↔
        p.disabled = true)) ∧
    (render medium16 p s).root.className.count "disabled" ≤ 1 := by
  have h1 := (variantClass_ne_disabled p.use).symm
  have h2 := (sizeClass_ne_disabled medium16 p.size).symm
  refine ⟨?_, ?_, ?_, ?_⟩
  · by_cases hu : p.use = "link" <;> simp [render, baseRootProps, hu]
  · intro hu
    have hcl : (render medium16 p s).root.className =
        baseClassName medium16 p s := by
      simp [render, hu, baseRootProps]
    rw [hcl, baseClassName, mem_classNames]
    simp [h1, h2]
  · intro hu
    have hcl : (render medium16 p s).root.className =
        linkClassName medium16 p s := by
      simp [render, hu]
    rw [hcl, linkClassName, mem_classNames]
    simp [h2]
  · have hb1 : (variantClass p.use == "disabled") = false :=
      beq_eq_false_iff_ne.mpr (variantClass_ne_disabled p.use)
    have hb2 : (sizeClass medium16 p.size == "disabled") = false :=
      beq_eq_false_iff_ne.mpr (sizeClass_ne_disabled medium16 p.size)
    by_cases hu : p.use = "link"
    · have hcl : (render medium16 p s).root.className =
          linkClassName medium16 p s := by
        simp [render, hu]
      rw [hcl, linkClassName]
      refine le_trans (count_classNames_le _ _) ?_
      simp [List.count_cons, hb1, hb2]
    · have hcl : (render medium16 p s).root.className =
          baseClassName medium16 p s := by
        simp [render, hu, baseRootProps]
      rw [hcl, baseClassName]
      refine le_trans (count_classNames_le _ _) ?_
      simp [List.count_cons, hb1, hb2]

/-- Witness for C7 (amended) at `disabled = true`, all else default. -/
theorem disabled_class_attr_witness :
    "disabled" ∈
      (render false { defProps with disabled := true }
        stateFalse).root.className :=
  ((disabled_class_attr false { defProps with disabled := true }
      stateFalse).2.1 (by decide)).mpr (by decide)

/-- Claim C8: the root class list always contains exactly one variant
class — the class mapped from `use` when `use` is a recognized variant,
the default variant's class when it is not — and never none; rendering is
a total function of the configuration, so no `use` value makes it fail. -/
theorem variant_class_unique (medium16 : Bool) (p : ButtonProps)
    (s : ButtonState) :
    (render medium16 p s).root.className.filter
        (fun a => decide (a ∈ variantNames)) = [variantClass p.use] ∧
    variantClass p.use =
      (if p.use ∈ variantNames then p.use else "default") := by
  constructor
  · have hv : decide (variantClass p.use ∈ variantNames) = true :=
      decide_eq_true (variantClass_mem_names p.use)
    have hs := sizeClass_not_variant medium16 p.size
    simp only [variantNames, List.mem_cons, List.not_mem_nil, or_false,
      eq_iff_iff, iff_false, not_or] at hs
    by_cases hu : p.use = "link"
    · have hcl : (render medium16 p s).root.className =
          linkClassName medium16 p s := by
        simp [render, hu]
      have hlk : variantClass p.use = "link" := by rw [hu]; decide
      rw [hcl, linkClassName, filter_classNames, hlk]
      simp [classNames, variantNames, List.filter_cons, hs.1, hs.2.1,
        hs.2.2.1, hs.2.2.2.1, hs.2.2.2.2.1, hs.2.2.2.2.2]
    · have hcl : (render medium16 p s).root.className =
          baseClassName medium16 p s := by
        simp [render, hu, baseRootProps]
      rw [hcl, baseClassName, filter_classNames]
      simp only [List.filter_cons, List.filter_nil, hv, sizeClass_not_variant]
      simp [classNames, variantNames, variantClass_mem_names, hs.1, hs.2.1,
        hs.2.2.1, hs.2.2.2.1, hs.2.2.2.2.1, hs.2.2.2.2.2]
  · unfold variantClass classesLookup
    split <;> simp_all

/-- Claim C10: the link-variant override rewrites only the root class
set, the wrapper class, the textAlign style, and the loading / arrow /
error-or-warning children; every other root property of the base
composition is unchanged — in particular the disabled control attribute
is still `disabled || loading`, and type, tabIndex, width style,
border-radius and all event handlers are those of the base composition;
the icon child and the wrapper width are also preserved. -/
theorem link_override_frame (medium16 : Bool) (p : ButtonProps)
    (s : ButtonState) (h : p.use = "link") :
    (render medium16 p s).root =
      { baseRootProps medium16 p s with
          className := linkClassName medium16 p s
          style :=
            { (baseRootProps medium16 p s).style with textAlign := none } } ∧
    (render medium16 p s).root.disabled = (p.disabled || p.loading) ∧
    (render medium16 p s).loading = none ∧
    (render medium16 p s).arrow = none ∧
    (render medium16 p s).error = none ∧
    (render medium16 p s).icon =
      (if p.icon.isSome then some "icon" else none) ∧
    (render medium16 p s).wrapClassName = "wrap" ∧
    (render medium16 p s).wrapWidth = none := by
  refine ⟨?_, ?_, ?_, ?_, ?_, ?_, ?_, ?_⟩ <;>
    simp [render, h, baseRootProps]

/-- Witness for C10: a link button that is loading still renders a
disabled control with no loading indicator. -/
theorem link_override_frame_witness :
    (render false linkLoadingProps stateFalse).loading = none :=
  (link_override_frame false linkLoadingProps stateFalse rfl).2.2.1

/-- Claim C9: `focus()` moves input focus to the underlying control when
the node exists and is a no-op when it is absent; `blur()` is symmetric;
both are total functions, so neither ever fails. -/
theorem focus_blur_noop (c : FocusConfig) (s : MState) :
    (s.node = false → focus c s = s ∧ blur c s = s) ∧
    (s.node = true →
      (focus c s).hasFocus = true ∧ (blur c s).hasFocus = false) := by
  constructor
  · intro h
    simp [focus, blur, h]
  · intro h
    constructor
    · by_cases hf : s.hasFocus = true
      · simp [focus, h, hf]
      · simp [focus, step, handleFocus, h, hf]
        split <;> simp_all
    · by_cases hf : s.hasFocus = true
      · simp [blur, step, handleBlur, h, hf]
      · simp [blur, h, hf]

/-- Witness for C9: before mount (no node) both calls are no-ops, and on
a mounted node focus lands. -/
theorem focus_blur_noop_witness :
    focus cfgPlain initMState = initMState ∧
    (focus cfgPlain sNode).hasFocus = true :=
  ⟨((focus_blur_noop cfgPlain initMState).1 rfl).1,
    ((focus_blur_noop cfgPlain sNode).2 rfl).1⟩

/-- Claim C3: on a mounted (listener attached), non-disabled,
non-focus-suppressed instance, a Tab keydown followed by a focus event
and the resolution of the deferred check yields `focusedByTab = true` and
clears the process-wide flag; a focus event with no preceding Tab keydown
(flag false) leaves `focusedByTab` and the flag unchanged; and a disabled
or focus-suppressed instance never schedules the deferred check. -/
theorem tab_then_focus (c : FocusConfig) (s : MState)
    (hl : s.isListening = true) (hd : c.disabled = false)
    (hf : c.disableFocus = false) :
    (run c s [Ev.keydown KEYCODE_TAB, Ev.focusEvt, Ev.tick]).focusedByTab =
      true ∧
    (run c s [Ev.keydown KEYCODE_TAB, Ev.focusEvt, Ev.tick]).tabPressed =
      false ∧
    (s.tabPressed = false →
      (run c s [Ev.focusEvt, Ev.tick]).focusedByTab = s.focusedByTab ∧
      (run c s [Ev.focusEvt, Ev.tick]).tabPressed = false) ∧
    (∀ c2 : FocusConfig, c2.disabled = true ∨ c2.disableFocus = true →
      (step c2 s Ev.focusEvt).pending = s.pending) := by
  refine ⟨?_, ?_, ?_, ?_⟩
  · simp [run, step, keydownListener, handleFocus, runTick, KEYCODE_TAB,
      hl, hd, hf]
  · simp [run, step, keydownListener, handleFocus, runTick, KEYCODE_TAB,
      hl, hd, hf]
  · intro ht
    constructor <;>
      simp [run, step, handleFocus, runTick, hd, hf, ht]
  · rintro c2 (h2 | h2) <;> simp [step, handleFocus, h2]

/-- Witness for C3: the concrete Tab-then-focus run from the freshly
attached listener state. -/
theorem tab_then_focus_witness :
    (run cfgPlain sListening
      [Ev.keydown KEYCODE_TAB, Ev.focusEvt, Ev.tick]).focusedByTab = true :=
  (tab_then_focus cfgPlain sListening rfl rfl rfl).1

/-- Claim C4 counterexample: a deferred check still pending at blur time
resolves after the blur with the Tab flag set, leaving
`focusedByTab = true` while the control no longer holds focus — the
claimed invariant fails on the reachable trace keydown-Tab, focus, blur,
deferred-check resolution. -/
theorem focus_invariant_ctrex :
    (run cfgPlain sListening
      [Ev.keydown KEYCODE_TAB, Ev.focusEvt, Ev.blurEvt,
        Ev.tick]).focusedByTab = true ∧
    (run cfgPlain sListening
      [Ev.keydown KEYCODE_TAB, Ev.focusEvt, Ev.blurEvt,
        Ev.tick]).hasFocus = false := by
  decide

theorem step_keeps_invariant (c : FocusConfig) (s : MState) (e : Ev)
    (h0 : s.focusedByTab = true → s.hasFocus = true)
    (he : e = Ev.tick → s.hasFocus = true) :
    (step c s e).focusedByTab = true → (step c s e).hasFocus = true := by
  cases e with
  | keydown k =>
      simp only [step, keydownListener]
      split <;> simpa using h0
  | focusEvt =>
      simp only [step, handleFocus]
      split <;> simp
  | blurEvt =>
      simp only [step, handleBlur]
      simp
  | tick =>
      have hh := he rfl
      simp only [step, runTick]
      split
      · split <;> simp [hh]
      · simp [hh]

/-- Claim C4 as amended: a blur event unconditionally sets
`focusedByTab` to false regardless of its prior value and of the
disabled / disableFocus flags; and `focusedByTab` is true only while the
control holds focus on every trace in which each deferred check resolves
while the control still has focus — a check still pending at blur can
re-set `focusedByTab` after focus is lost. -/
theorem blur_clears_focusedByTab (c : FocusConfig) (s : MState)
    (evs : List Ev) (h0 : s.focusedByTab = true → s.hasFocus = true)
    (hs : ticksSafe c s evs = true) :
    ((run c s evs).focusedByTab = true → (run c s evs).hasFocus = true) ∧
    (∀ s2 : MState, (step c s2 Ev.blurEvt).focusedByTab = false) := by
  constructor
  · induction evs generalizing s with
    | nil => simpa [run] using h0
    | cons e rest ih =>
        rw [ticksSafe, Bool.and_eq_true] at hs
        have he : e = Ev.tick → s.hasFocus = true := by
          intro het
          rcases Bool.or_eq_true _ _ |>.mp hs.1 with h | h
          · simp [het] at h
          · exact h
        have hrun : run c s (e :: rest) = run c (step c s e) rest := rfl
        rw [hrun]
        exact ih (step c s e) (step_keeps_invariant c s e h0 he) hs.2
  · intro s2
    simp [step, handleBlur]

/-- Witness for C4 (amended) on the tick-safe Tab-then-focus trace. -/
theorem blur_clears_focusedByTab_witness :
    (run cfgPlain sListening
      [Ev.keydown KEYCODE_TAB, Ev.focusEvt, Ev.tick]).hasFocus = true :=
  (blur_clears_focusedByTab cfgPlain sListening
      [Ev.keydown KEYCODE_TAB, Ev.focusEvt, Ev.tick]
      (by decide) (by decide)).1 (by decide)

/-- Claim C5: on mount with autoFocus on a focusable, rendered instance,
the widget ensures the detector is active, forces the process-wide flag,
and invokes focus, so the instance holds focus immediately after mount
and, once the deferred check resolves, `focusedByTab` is true and the
flag is consumed. -/
theorem autofocus_mount (c : FocusConfig) (s : MState)
    (ha : c.autoFocus = true) (hd : c.disabled = false)
    (hf : c.disableFocus = false) (hn : s.node = true)
    (h0 : s.hasFocus = false) :
    (componentDidMount c s).isListening = true ∧
    (componentDidMount c s).tabPressed = true ∧
    (componentDidMount c s).hasFocus = true ∧
    (run c (componentDidMount c s) [Ev.tick]).focusedByTab = true ∧
    (run c (componentDidMount c s) [Ev.tick]).tabPressed = false := by
  by_cases hl : s.isListening = true <;>
    · refine ⟨?_, ?_, ?_, ?_, ?_⟩ <;>
        simp [componentDidMount, listenTabPresses, focus, run, step,
          handleFocus, runTick, ha, hd, hf, hn, h0, hl]

/-- Witness for C5: mount of an autofocus instance from the fresh
rendered state. -/
theorem autofocus_mount_witness :
    (run cfgAuto (componentDidMount cfgAuto sNode) [Ev.tick]).focusedByTab =
      true :=
  (autofocus_mount cfgAuto sNode rfl rfl rfl rfl rfl).2.2.2.1

theorem listenTabPresses_fixed (s : MState) (h : s.isListening = true) :
    listenTabPresses s = s := by
  simp [listenTabPresses, h]

theorem listenTabPresses_iterate_fixed (n : Nat) (s : MState)
    (h : s.isListening = true) : listenTabPresses^[n] s = s := by
  induction n with
  | zero => rfl
  | succ m ih =>
      rw [Function.iterate_succ_apply, listenTabPresses_fixed s h]
      exact ih

/-- Claim C6: `listenTabPresses` is idempotent — any n ≥ 1 calls from a
fresh process state attach exactly one keydown listener, by the first
call only — and the attached listener sets the process-wide flag to true
exactly when the pressed key code is the Tab key code and to false on any
other keydown. -/
theorem listen_attaches_once (n : Nat) (hn : 1 ≤ n) (s : MState)
    (hl : s.isListening = false) (h0 : s.listenerCount = 0) :
    (listenTabPresses^[n] s).listenerCount = 1 ∧
    (listenTabPresses^[n] s).isListening = true ∧
    (∀ k : Nat,
      (keydownListener k (listenTabPresses^[n] s)).tabPressed =
        (k == KEYCODE_TAB)) := by
  obtain ⟨m, rfl⟩ : ∃ m, n = m + 1 :=
    ⟨n - 1, (Nat.succ_pred_eq_of_pos hn).symm⟩
  have h1 : listenTabPresses s =
      { s with listenerCount := 1, isListening := true } := by
    simp [listenTabPresses, hl, h0]
  rw [Function.iterate_succ_apply, h1,
    listenTabPresses_iterate_fixed m _ rfl]
  refine ⟨rfl, rfl, ?_⟩
  intro k
  simp [keydownListener]

/-- Witness for C6 at three calls from the fresh process state. -/
theorem listen_attaches_once_witness :
    (listenTabPresses^[3] initMState).listenerCount = 1 :=
  (listen_attaches_once 3 (by decide) initMState rfl rfl).1

end ButtonSpec
